import Mathlib

/-!
Shallow embedding of `src/monitor_build.py`, a GitHub Actions build monitor.
The network is modelled by passing the remote responses in as data: a
`WorkflowsResponse` for the list-workflows call, a status code for the
dispatch call, and a stream `Nat → RunsResponse` giving the response to the
k-th list-runs poll.  Printing is modelled as the list of strings passed to
`print`, and the network calls `main` performs are collected in a list.
-/

namespace MonitorBuild

def OWNER : String := "user662122"

def REPO : String := "user662122"

/-- A workflow record as returned by the list-workflows endpoint. -/
structure Workflow where
  id : Nat
  path : String
  deriving DecidableEq

/-- A workflow-run record as returned by the list-runs endpoint.
`conclusion` is `none` when the JSON field is null/absent. -/
structure Run where
  status : String
  conclusion : Option String
  html_url : String
  deriving DecidableEq

/-- Response to the list-workflows request: HTTP status and decoded body. -/
structure WorkflowsResponse where
  status_code : Nat
  workflows : List Workflow
  deriving DecidableEq

/-- Response to one list-runs request: HTTP status and decoded body. -/
structure RunsResponse where
  status_code : Nat
  workflow_runs : List Run
  deriving DecidableEq

/-- `get_workflow_runs`: returns the decoded run list on HTTP 200,
the empty list otherwise. -/
def get_workflow_runs (response : RunsResponse) : List Run :=
  if response.status_code = 200 then response.workflow_runs else []

/-- Python `str.endswith`, modelled as a suffix test on the character
sequence of the string. -/
def endswith (s suffix : String) : Bool :=
  List.isSuffixOf suffix.data s.data

/-- The `for workflow in workflows` loop inside `get_workflow_id`:
return the id of the first workflow whose path ends with the name. -/
def findWorkflowId : List Workflow → String → Option Nat
  | [], _ => none
  | workflow :: rest, workflow_name =>
    if endswith workflow.path workflow_name then some workflow.id
    else findWorkflowId rest workflow_name

/-- `get_workflow_id`: on HTTP 200, scan the workflow list for the first
path ending in `workflow_name`; otherwise (or when nothing matches) `None`. -/
def get_workflow_id (response : WorkflowsResponse) (workflow_name : String) :
    Option Nat :=
  if response.status_code = 200 then findWorkflowId response.workflows workflow_name
  else none

/-- `trigger_workflow`: the dispatch is reported successful exactly when the
HTTP response status is 204. -/
def trigger_workflow (response_status : Nat) : Bool :=
  response_status == 204

/-- Python truthiness of `GITHUB_TOKEN`: `os.environ.get` yields `None`
(absent) or a string, and `not token` is true for `None` and for `""`. -/
def tokenFalsy : Option String → Bool
  | none => true
  | some token => token == ""

/-- Python rendering of the `conclusion` value in an f-string:
`None` prints as the string "None". -/
def conclusionStr : Option String → String
  | none => "None"
  | some s => s

/-- The `'='*60` separator printed around the final verdict. -/
def sepLine : String := String.mk (List.replicate 60 '=')

/-- Outcome of one iteration of the polling loop: either the function
returns (`done true` for success, `done false` for failure), or the loop
continues with an updated `previous_status`. -/
inductive StepResult where
  | done (result : Bool)
  | next (previous_status : Option String)
  deriving DecidableEq

/-- One iteration of the `while` loop in `monitor_latest_run`: the lines it
prints and whether it returns or continues.  `previous_status` is `none`
before the first run is observed. -/
def monitorStep (response : RunsResponse) (previous_status : Option String) :
    List String × StepResult :=
  match get_workflow_runs response with
  | [] => (["No workflow runs found"], StepResult.next previous_status)
  | latest :: _ =>
    let status := latest.status
    let conclusion := latest.conclusion
    let updateLines :=
      if some status ≠ previous_status then
        ("Status: " ++ status) ::
          (match conclusion with
           | some c => if c ≠ "" then ["Conclusion: " ++ c] else []
           | none => [])
      else []
    let newPrev := if some status ≠ previous_status then some status else previous_status
    if status = "completed" then
      if conclusion = some "success" then
        (updateLines ++ ["\n" ++ sepLine, "✅ Build SUCCESSFUL!",
          "\n🔗 View run: " ++ latest.html_url,
          "📦 Download artifacts from the Actions tab"], StepResult.done true)
      else
        (updateLines ++ ["\n" ++ sepLine,
          "❌ Build FAILED with conclusion: " ++ conclusionStr conclusion,
          "\n🔗 View logs: " ++ latest.html_url], StepResult.done false)
    else
      (updateLines, StepResult.next newPrev)

/-- `max_checks = 60  # 5 minutes max` -/
def max_checks : Nat := 60

/-- Result of `monitor_latest_run`: the returned value (`some true`,
`some false`, or `none` on timeout), the printed lines, and the number of
list-runs polls performed. -/
structure MonitorOutput where
  result : Option Bool
  lines : List String
  attempts : Nat
  deriving DecidableEq

/-- The `while check_count < max_checks` loop, recursing on the number of
remaining iterations; `check_count` is the index of the current poll. -/
def monitorLoop (polls : Nat → RunsResponse) :
    Nat → Option String → Nat → MonitorOutput
  | 0, _, _ => ⟨none, ["\n⏱️ Timeout reached"], 0⟩
  | Nat.succ remaining, previous_status, check_count =>
    let stepLines := (monitorStep (polls check_count) previous_status).1
    match (monitorStep (polls check_count) previous_status).2 with
    | StepResult.done r => ⟨some r, stepLines, 1⟩
    | StepResult.next p =>
      let rest := monitorLoop polls remaining p (check_count + 1)
      ⟨rest.result, stepLines ++ rest.lines, rest.attempts + 1⟩

/-- `monitor_latest_run`: print the banner, then run the polling loop with
`previous_status = None` and `check_count = 0`. -/
def monitor_latest_run (polls : Nat → RunsResponse) : MonitorOutput :=
  let m := monitorLoop polls max_checks none 0
  ⟨m.result, "\n🔍 Monitoring latest workflow run...\n" :: m.lines, m.attempts⟩

/-- The network requests the script can issue. -/
inductive NetCall where
  | listWorkflows
  | dispatch (workflow_id : Nat)
  | listRuns (attempt : Nat)
  deriving DecidableEq

/-- Result of `main`: the value returned to `sys.exit`, the printed lines,
and the network calls performed, in order. -/
structure MainOutput where
  exitCode : Nat
  lines : List String
  calls : List NetCall
  deriving DecidableEq

/-- `main`, parameterised by the environment: the credential
(`os.environ.get('GITHUB_PAT')`), the list-workflows response, the dispatch
response status, and the stream of list-runs responses. -/
def main (github_token : Option String) (workflowsResp : WorkflowsResponse)
    (dispatchStatus : Nat) (polls : Nat → RunsResponse) : MainOutput :=
  if tokenFalsy github_token then
    ⟨1, ["❌ GITHUB_PAT not found"], []⟩
  else
    let headerLines := [sepLine, "🚀 GitHub Actions Build Monitor",
      "Repository: " ++ OWNER ++ "/" ++ REPO, sepLine,
      "\n🔧 Checking for workflow..."]
    let workflow_id := get_workflow_id workflowsResp "build.yml"
    let triggerLines :=
      match workflow_id with
      | some wid =>
        if wid ≠ 0 then
          ["Found workflow ID: " ++ toString wid, "\n▶️ Triggering workflow..."] ++
            (if trigger_workflow dispatchStatus then
              ["✅ Workflow triggered successfully"]
             else ["⚠️ Could not trigger workflow (may be already running)"])
        else ["⚠️ Workflow not found or not yet pushed"]
      | none => ["⚠️ Workflow not found or not yet pushed"]
    let triggerCalls :=
      match workflow_id with
      | some wid => if wid ≠ 0 then [NetCall.dispatch wid] else []
      | none => []
    let m := monitor_latest_run polls
    let monitorCalls := (List.range m.attempts).map NetCall.listRuns
    let exitCode :=
      match m.result with
      | some true => 0
      | some false => 1
      | none => 0
    let tailLines :=
      match m.result with
      | some true => []
      | some false => []
      | none => ["\n📊 Check build status at:",
          "https://github.com/" ++ OWNER ++ "/" ++ REPO ++ "/actions"]
    ⟨exitCode, headerLines ++ triggerLines ++ m.lines ++ tailLines,
      NetCall.listWorkflows :: (triggerCalls ++ monitorCalls)⟩

/-- A poll response is decisive when it makes `monitor_latest_run` return:
the run list (after `get_workflow_runs`) is nonempty and the latest run has
status "completed". -/
def decisive (response : RunsResponse) : Bool :=
  match get_workflow_runs response with
  | [] => false
  | latest :: _ => decide (latest.status = "completed")

/-- Example run used as concrete input in several witnesses. -/
def sampleRun : Run := ⟨"completed", some "success", "https://example.test/run"⟩

/-- Example workflow whose path matches "build.yml". -/
def sampleWorkflow : Workflow := ⟨77, ".github/workflows/build.yml"⟩

/-- A list-runs response with a 2xx (but not 200) status and a nonempty body. -/
def accepted2xxRuns : RunsResponse := ⟨202, [sampleRun]⟩

/-- A list-workflows response with a 2xx (but not 200) status and a match. -/
def accepted2xxWorkflows : WorkflowsResponse := ⟨202, [sampleWorkflow]⟩

theorem monitorStep_done (response : RunsResponse) (prev : Option String)
    (latest : Run) (rest : List Run)
    (hrun : get_workflow_runs response = latest :: rest)
    (hst : latest.status = "completed") :
    (monitorStep response prev).2 =
      StepResult.done (decide (latest.conclusion = some "success")) := by
  unfold monitorStep
  rw [hrun]
  by_cases hc : latest.conclusion = some "success" <;> simp [hst, hc]

theorem monitorStep_next_of_not_decisive (response : RunsResponse)
    (prev : Option String) (hnd : decisive response = false) :
    ∃ p, (monitorStep response prev).2 = StepResult.next p := by
  unfold monitorStep
  unfold decisive at hnd
  cases hrun : get_workflow_runs response with
  | nil => exact ⟨prev, rfl⟩
  | cons latest rest =>
    rw [hrun] at hnd
    simp only [decide_eq_false_iff_not] at hnd
    simp [hnd]

theorem monitorLoop_attempts_le (polls : Nat → RunsResponse) :
    ∀ (n : Nat) (prev : Option String) (idx : Nat),
      (monitorLoop polls n prev idx).attempts ≤ n := by
  intro n
  induction n with
  | zero => intro prev idx; simp [monitorLoop]
  | succ r ih =>
    intro prev idx
    unfold monitorLoop
    cases h : (monitorStep (polls idx) prev).2 with
    | done v => simp [h]
    | next p =>
      simp only [h]
      simpa using Nat.succ_le_succ (ih p (idx + 1))

theorem monitorLoop_result_of_decisive (polls : Nat → RunsResponse) :
    ∀ (k n idx : Nat) (prev : Option String) (latest : Run) (rest : List Run),
      k < n →
      (∀ j, j < k → decisive (polls (idx + j)) = false) →
      get_workflow_runs (polls (idx + k)) = latest :: rest →
      latest.status = "completed" →
      (monitorLoop polls n prev idx).result =
        some (decide (latest.conclusion = some "success")) := by
  intro k
  induction k with
  | zero =>
    intro n idx prev latest rest hk hnd hrun hst
    cases n with
    | zero => omega
    | succ r =>
      unfold monitorLoop
      rw [Nat.add_zero] at hrun
      rw [monitorStep_done (polls idx) prev latest rest hrun hst]
  | succ k ih =>
    intro n idx prev latest rest hk hnd hrun hst
    cases n with
    | zero => omega
    | succ r =>
      unfold monitorLoop
      have h0 : decisive (polls idx) = false := by
        simpa using hnd 0 (Nat.succ_pos k)
      obtain ⟨p, hp⟩ := monitorStep_next_of_not_decisive (polls idx) prev h0
      rw [hp]
      have hrun' : get_workflow_runs (polls (idx + 1 + k)) = latest :: rest := by
        have he : idx + 1 + k = idx + (k + 1) := by omega
        rw [he]; exact hrun
      have hnd' : ∀ j, j < k → decisive (polls (idx + 1 + j)) = false := by
        intro j hj
        have he : idx + 1 + j = idx + (j + 1) := by omega
        rw [he]
        exact hnd (j + 1) (Nat.succ_lt_succ hj)
      simpa using ih r (idx + 1) p latest rest (Nat.lt_of_succ_lt_succ hk) hnd' hrun' hst

theorem monitorLoop_timeout (polls : Nat → RunsResponse) :
    ∀ (n idx : Nat) (prev : Option String),
      (∀ j, j < n → decisive (polls (idx + j)) = false) →
      (monitorLoop polls n prev idx).result = none ∧
      "\n⏱️ Timeout reached" ∈ (monitorLoop polls n prev idx).lines := by
  intro n
  induction n with
  | zero => intro idx prev _; simp [monitorLoop]
  | succ r ih =>
    intro idx prev hnd
    have h0 : decisive (polls idx) = false := by
      simpa using hnd 0 (Nat.succ_pos r)
    obtain ⟨p, hp⟩ := monitorStep_next_of_not_decisive (polls idx) prev h0
    unfold monitorLoop
    rw [hp]
    have hnd' : ∀ j, j < r → decisive (polls (idx + 1 + j)) = false := by
      intro j hj
      have he : idx + 1 + j = idx + (j + 1) := by omega
      rw [he]
      exact hnd (j + 1) (Nat.succ_lt_succ hj)
    have h := ih (idx + 1) p hnd'
    refine ⟨by simp [h.1], ?_⟩
    simp only [List.mem_append]
    exact Or.inr h.2

theorem main_exitCode_eq (token : Option String) (wf : WorkflowsResponse)
    (d : Nat) (polls : Nat → RunsResponse) (h : tokenFalsy token = false) :
    (main token wf d polls).exitCode =
      (match (monitor_latest_run polls).result with
       | some true => 0
       | some false => 1
       | none => 0) := by
  unfold main
  rw [h]
  simp

theorem findWorkflowId_eq_find (l : List Workflow) (name : String) :
    findWorkflowId l name =
      Option.map Workflow.id (List.find? (fun w => endswith w.path name) l) := by
  induction l with
  | nil => rfl
  | cons w rest ih =>
    by_cases h : endswith w.path name
    · simp [findWorkflowId, List.find?_cons_of_pos, h]
    · simp [findWorkflowId, List.find?_cons_of_neg, h, ih]

/-- C2: if the GITHUB_PAT environment variable is absent, `main` exits with
code 1, prints only the missing-credential message, and performs no network
calls at all. -/
theorem missing_token_exits_one_no_network (wf : WorkflowsResponse) (d : Nat)
    (polls : Nat → RunsResponse) :
    (main none wf d polls).exitCode = 1 ∧
    (main none wf d polls).calls = [] ∧
    (main none wf d polls).lines = ["❌ GITHUB_PAT not found"] :=
  ⟨rfl, rfl, rfl⟩

/-- C10: a GITHUB_PAT that is present but empty is treated exactly like a
missing one: `main` produces the same output, exiting with code 1, printing
the missing-credential message, and making no network calls. -/
theorem empty_token_like_missing (wf : WorkflowsResponse) (d : Nat)
    (polls : Nat → RunsResponse) :
    main (some "") wf d polls = main none wf d polls ∧
    (main (some "") wf d polls).exitCode = 1 ∧
    (main (some "") wf d polls).lines = ["❌ GITHUB_PAT not found"] ∧
    (main (some "") wf d polls).calls = [] :=
  ⟨rfl, rfl, rfl, rfl⟩

/-- C6: `trigger_workflow` reports success exactly when the dispatch
response status is 204. -/
theorem trigger_success_iff_204 (response_status : Nat) :
    trigger_workflow response_status = true ↔ response_status = 204 := by
  simp [trigger_workflow]

/-- C7: `get_workflow_id` returns, on an HTTP 200 response, the id of the
first workflow whose path ends with the requested name, and `none` on any
other status (and, via `List.find?`, `none` when no path matches). -/
theorem workflow_id_is_first_match (response : WorkflowsResponse)
    (workflow_name : String) :
    get_workflow_id response workflow_name =
      (if response.status_code = 200 then
        Option.map Workflow.id
          (List.find? (fun w => endswith w.path workflow_name) response.workflows)
      else none) := by
  unfold get_workflow_id
  by_cases h : response.status_code = 200 <;>
    simp [h, findWorkflowId_eq_find]

/-- C4: the polling loop performs at most 60 list-runs attempts, whatever
the remote responses are. -/
theorem polling_attempts_bounded (polls : Nat → RunsResponse) :
    (monitor_latest_run polls).attempts ≤ 60 :=
  monitorLoop_attempts_le polls max_checks none 0

/-- C3 counterexample: a 2xx (202) response does not yield its data to the
caller — `get_workflow_runs` returns the empty list despite a nonempty body,
and `get_workflow_id` returns no id despite a matching workflow, because the
code tests for status 200 exactly, not for the 2xx class. -/
theorem non200_2xx_is_failure :
    200 ≤ accepted2xxRuns.status_code ∧ accepted2xxRuns.status_code < 300 ∧
    accepted2xxRuns.workflow_runs ≠ [] ∧
    get_workflow_runs accepted2xxRuns = [] ∧
    200 ≤ accepted2xxWorkflows.status_code ∧
    accepted2xxWorkflows.status_code < 300 ∧
    endswith sampleWorkflow.path "build.yml" = true ∧
    sampleWorkflow ∈ accepted2xxWorkflows.workflows ∧
    get_workflow_id accepted2xxWorkflows "build.yml" = none := by
  refine ⟨by decide, by decide, by decide, rfl, by decide, by decide, by decide, ?_, rfl⟩
  simp [accepted2xxWorkflows]

/-- C3 amended: failure is exactly a non-200 status — a 200 response yields
the decoded data to the caller, and any other status (2xx or not) yields an
empty result (empty run list, no workflow id). -/
theorem http_200_boundary (runsResp : RunsResponse) (wfResp : WorkflowsResponse)
    (workflow_name : String) :
    (runsResp.status_code = 200 →
      get_workflow_runs runsResp = runsResp.workflow_runs) ∧
    (runsResp.status_code ≠ 200 → get_workflow_runs runsResp = []) ∧
    (wfResp.status_code ≠ 200 → get_workflow_id wfResp workflow_name = none) := by
  refine ⟨fun h => ?_, fun h => ?_, fun h => ?_⟩ <;>
    simp [get_workflow_runs, get_workflow_id, h]

theorem http_200_boundary_witness :
    get_workflow_runs ⟨500, [sampleRun]⟩ = [] ∧
    get_workflow_id ⟨404, [sampleWorkflow]⟩ "build.yml" = none :=
  ⟨(http_200_boundary ⟨500, [sampleRun]⟩ ⟨404, [sampleWorkflow]⟩ "build.yml").2.1
      (by decide),
   (http_200_boundary ⟨500, [sampleRun]⟩ ⟨404, [sampleWorkflow]⟩ "build.yml").2.2
      (by decide)⟩

/-- C9: with a usable credential, the exit code never depends on the
workflow-resolution response or on the dispatch response: it is determined
solely by the monitoring result. -/
theorem exit_independent_of_trigger (token : Option String)
    (wf wf2 : WorkflowsResponse) (d d2 : Nat) (polls : Nat → RunsResponse)
    (htok : tokenFalsy token = false) :
    (main token wf d polls).exitCode = (main token wf2 d2 polls).exitCode ∧
    (main token wf d polls).exitCode =
      (match (monitor_latest_run polls).result with
       | some true => 0
       | some false => 1
       | none => 0) := by
  refine ⟨?_, main_exitCode_eq token wf d polls htok⟩
  rw [main_exitCode_eq token wf d polls htok,
    main_exitCode_eq token wf2 d2 polls htok]

theorem exit_independent_of_trigger_witness :
    (main (some "tok") ⟨200, [sampleWorkflow]⟩ 204 (fun _ => accepted2xxRuns)).exitCode =
      (main (some "tok") ⟨500, []⟩ 403 (fun _ => accepted2xxRuns)).exitCode ∧
    (main (some "tok") ⟨200, [sampleWorkflow]⟩ 204 (fun _ => accepted2xxRuns)).exitCode =
      (match (monitor_latest_run (fun _ => accepted2xxRuns)).result with
       | some true => 0
       | some false => 1
       | none => 0) :=
  exit_independent_of_trigger (some "tok") ⟨200, [sampleWorkflow]⟩ ⟨500, []⟩
    204 403 (fun _ => accepted2xxRuns) rfl

/-- C5: if no poll within the 60 attempts is decisive (no completed run is
ever observed), monitoring returns no result, the timeout message is
printed, and `main` exits with code 0, not 1. -/
theorem timeout_is_inconclusive (token : Option String) (wf : WorkflowsResponse)
    (d : Nat) (polls : Nat → RunsResponse)
    (htok : tokenFalsy token = false)
    (hnd : ∀ j, j < max_checks → decisive (polls j) = false) :
    (monitor_latest_run polls).result = none ∧
    "\n⏱️ Timeout reached" ∈ (monitor_latest_run polls).lines ∧
    (main token wf d polls).exitCode = 0 := by
  have hnd' : ∀ j, j < max_checks → decisive (polls (0 + j)) = false := by
    intro j hj; simpa using hnd j hj
  have h := monitorLoop_timeout polls max_checks 0 none hnd'
  refine ⟨by simpa [monitor_latest_run] using h.1, ?_, ?_⟩
  · simp only [monitor_latest_run, List.mem_cons]
    exact Or.inr h.2
  · rw [main_exitCode_eq token wf d polls htok]
    have hres : (monitor_latest_run polls).result = none := by
      simpa [monitor_latest_run] using h.1
    rw [hres]

theorem timeout_is_inconclusive_witness :
    (monitor_latest_run (fun _ => ⟨500, []⟩)).result = none ∧
    "\n⏱️ Timeout reached" ∈ (monitor_latest_run (fun _ => ⟨500, []⟩)).lines ∧
    (main (some "tok") ⟨500, []⟩ 403 (fun _ => ⟨500, []⟩)).exitCode = 0 :=
  timeout_is_inconclusive (some "tok") ⟨500, []⟩ 403 (fun _ => ⟨500, []⟩)
    rfl (fun _ _ => rfl)

/-- C1: when monitoring first observes a completed run, the exit code is 0
exactly when its conclusion is "success" and 1 for any other conclusion,
including a null one. -/
theorem completed_run_decides_exit (token : Option String)
    (wf : WorkflowsResponse) (d : Nat) (polls : Nat → RunsResponse)
    (k : Nat) (latest : Run) (rest : List Run)
    (htok : tokenFalsy token = false)
    (hk : k < max_checks)
    (hnd : ∀ j, j < k → decisive (polls j) = false)
    (hrun : get_workflow_runs (polls k) = latest :: rest)
    (hst : latest.status = "completed") :
    (main token wf d polls).exitCode =
      if latest.conclusion = some "success" then 0 else 1 := by
  have hnd' : ∀ j, j < k → decisive (polls (0 + j)) = false := by
    intro j hj; simpa using hnd j hj
  have hrun' : get_workflow_runs (polls (0 + k)) = latest :: rest := by
    simpa using hrun
  have hres : (monitor_latest_run polls).result =
      some (decide (latest.conclusion = some "success")) := by
    simpa [monitor_latest_run] using
      monitorLoop_result_of_decisive polls k max_checks 0 none latest rest
        hk hnd' hrun' hst
  rw [main_exitCode_eq token wf d polls htok, hres]
  by_cases hc : latest.conclusion = some "success" <;> simp [hc]

theorem completed_run_decides_exit_witness :
    (main (some "tok") ⟨500, []⟩ 403 (fun _ => ⟨200, [sampleRun]⟩)).exitCode =
      (if sampleRun.conclusion = some "success" then 0 else 1) :=
  completed_run_decides_exit (some "tok") ⟨500, []⟩ 403
    (fun _ => ⟨200, [sampleRun]⟩) 0 sampleRun [] rfl (by decide)
    (fun j hj => absurd hj (Nat.not_lt_zero j)) rfl rfl

/-- C8: on an iteration that observes a run (with the loop invariant that
the previously recorded status is never "completed"), the status line is
printed exactly when the status changed, nothing at all is printed when it
is unchanged, and the invariant is preserved when the loop continues. -/
theorem printed_iff_status_changed (response : RunsResponse)
    (prev : Option String) (latest : Run) (rest : List Run)
    (hrun : get_workflow_runs response = latest :: rest)
    (hprev : prev ≠ some "completed") :
    ((("Status: " ++ latest.status) ∈ (monitorStep response prev).1) ↔
      some latest.status ≠ prev) ∧
    (some latest.status = prev → (monitorStep response prev).1 = []) ∧
    (∀ p, (monitorStep response prev).2 = StepResult.next p →
      p ≠ some "completed") := by
  unfold monitorStep
  rw [hrun]
  by_cases heq : some latest.status = prev
  · have hst : latest.status ≠ "completed" := by
      intro hc
      exact hprev (by rw [← heq, hc])
    simp [heq, hst]
    exact hprev
  · by_cases hst : latest.status = "completed"
    · have h2 : ¬some "completed" = prev := by rw [← hst]; exact heq
      by_cases hc : latest.conclusion = some "success" <;>
        simp [heq, hst, hc] <;>
        exact ⟨fun _ => h2, h2⟩
    · simp [heq, hst]

theorem printed_iff_status_changed_witness :
    ((("Status: " ++ "in_progress") ∈
        (monitorStep ⟨200, [⟨"in_progress", none, "u"⟩]⟩ none).1) ↔
      some "in_progress" ≠ (none : Option String)) ∧
    (some "in_progress" = (none : Option String) →
      (monitorStep ⟨200, [⟨"in_progress", none, "u"⟩]⟩ none).1 = []) ∧
    (∀ p, (monitorStep ⟨200, [⟨"in_progress", none, "u"⟩]⟩ none).2 =
        StepResult.next p → p ≠ some "completed") :=
  printed_iff_status_changed ⟨200, [⟨"in_progress", none, "u"⟩]⟩ none
    ⟨"in_progress", none, "u"⟩ [] rfl (by simp)

end MonitorBuild
